import Mathlib

/-!
Verification of the scrape → transform → load pipeline of the
Analyzing-Pokemons repository.

The development shallowly embeds the pandas/BeautifulSoup code of
`src/components/data_processor.py`, `src/components/data_scraper.py`,
`src/constants.py`, `01_WEBSCRAPING/pokedex_scraper.py` and
`02_ETL/pokemons_data_etl.py` as executable Lean definitions:

* a scraped CSV row becomes the structure `ScrapedRow`;
* `DataProcessor.transform_data` becomes the function `transform_data`,
  whose intermediate stages (`assignIds`, `explodeTypes`, `entitiesOf`,
  `melt`, `dropDup`) mirror the pandas steps in source order;
* the dtype (`astype`) bookkeeping of the coercion step is embedded at the
  schema level by `transformedDtype`;
* the control flow of `PokemonScraper.scrape_data` and
  `DataProcessor.load_processed_tables` (what is inside and outside the
  `try` blocks) is embedded by `scrape_data` and `load_processed_tables`
  over abstract fallible sub-computations;
* the `PokemonInfo` dataclass construction is embedded by `callDataclass`
  together with the declared field list and the keyword-argument list that
  `extract_pokemon_info` actually uses.

Timestamps are modelled as naturals (only their ordering is used, by the
`pd.to_datetime(...).max()` step); the numeric stat cells are naturals, per
the spec invariant that they are non-negative integers.
-/

namespace AnalyzingPokemons

/-- One row of the scraped CSV, with the columns written by
`PokemonScraper` (`rank, name, types, total_power, hit_points, attack,
defense, special_attack, special_defense, speed, icon_url, details_url,
scrape_ts`), exactly the columns `DataProcessor.transform_data` consumes. -/
structure ScrapedRow where
  rank : Nat
  name : String
  types : String
  total_power : Nat
  hit_points : Nat
  attack : Nat
  defense : Nat
  special_attack : Nat
  special_defense : Nat
  speed : Nat
  icon_url : String
  details_url : String
  scrape_ts : Nat
deriving DecidableEq

/-- Python's `str.split` on a single separator character, on the character
list of the string: `"" ↦ [""]`, `"a,,b" ↦ ["a","","b"]` — the exact
semantics of the pandas `.str.split(",")` call in `transform_data`. -/
def splitChars (sep : Char) : List Char → List (List Char)
  | [] => [[]]
  | c :: cs =>
    if c = sep then [] :: splitChars sep cs
    else
      match splitChars sep cs with
      | [] => [[c]]
      | g :: gs => (c :: g) :: gs

/-- `s.split(",")` as used on the `types` column. -/
def pySplit (s : String) : List String :=
  (splitChars ',' s.data).map (fun cs => String.mk cs)

/-- Drop leading whitespace characters from a character list. -/
def dropLeadingWs : List Char → List Char
  | [] => []
  | c :: cs => if c.isWhitespace then dropLeadingWs cs else c :: cs

/-- Python's `str.strip()` (the pandas `.str.strip()` call on the exploded
`types` column): remove leading and trailing whitespace. -/
def pyStrip (s : String) : String :=
  String.mk (dropLeadingWs (dropLeadingWs s.data.reverse).reverse)

/-- A scraped row carrying its synthetic identifier (the `pokemon_id`
column produced from the custom `RangeIndex` in `transform_data`). -/
structure IndexedRow where
  pokemon_id : String
  row : ScrapedRow
deriving DecidableEq

/-- `pd.RangeIndex(start=1000, stop=1000+len(df))` turned into the string
column `"P" + index.astype("string")`: row number `i` (0-based) receives
identifier `"P" ++ Nat.repr (1000 + i)`; the recursion carries the running
counter `n`, started at the configured offset `1000`. -/
def assignIds : Nat → List ScrapedRow → List IndexedRow
  | _, [] => []
  | n, r :: rs => ⟨"P" ++ Nat.repr n, r⟩ :: assignIds (n + 1) rs

/-- A row after the `explode` of the `types` column: one single category
value (already stripped, per the subsequent `.str.strip()`), all other
columns repeated unchanged. -/
structure TypedRow where
  pokemon_id : String
  type : String
  row : ScrapedRow
deriving DecidableEq

/-- `df["types"] = df["types"].str.split(","); df = df.explode("types")`
followed by `df["types"].str.strip()`, for a single indexed row: one
output row per element of the split list. -/
def explodeTypes (x : IndexedRow) : List TypedRow :=
  (pySplit x.row.types).map (fun t => ⟨x.pokemon_id, pyStrip t, x.row⟩)

/-- The table after index assignment and explode, in `transform_data`
source order (index first, then explode). -/
def explodedOf (rows : List ScrapedRow) : List TypedRow :=
  (assignIds 1000 rows).flatMap explodeTypes

/-- `pd.to_datetime(df["scrape_ts"]).max()` evaluated, as in the source,
on the already-exploded frame (timestamps modelled as naturals). -/
def dataAsOnOf (rows : List ScrapedRow) : Nat :=
  ((explodedOf rows).map (fun x => x.row.scrape_ts)).foldr max 0

/-- One row after the derived columns (`Attack`, `Defense`, `Data As On`),
the drop of the raw paired columns and `total_power`/`scrape_ts`, and the
rename to presentation names. -/
structure EntityRow where
  PokeID : String
  Rank : Nat
  Pokemon : String
  type : String
  HP : Nat
  Attack : Nat
  Defense : Nat
  Speed : Nat
  Icon : String
  DetailsLink : String
  DataAsOn : Nat
deriving DecidableEq

/-- The derived-columns / drop / rename block of `transform_data`:
`Attack = attack + special_attack`, `Defense = defense + special_defense`,
`Data As On = max(scrape_ts)`; the remaining fields are renamed copies. -/
def toEntity (dataAsOn : Nat) (x : TypedRow) : EntityRow :=
  { PokeID := x.pokemon_id
    Rank := x.row.rank
    Pokemon := x.row.name
    type := x.type
    HP := x.row.hit_points
    Attack := x.row.attack + x.row.special_attack
    Defense := x.row.defense + x.row.special_defense
    Speed := x.row.speed
    Icon := x.row.icon_url
    DetailsLink := x.row.details_url
    DataAsOn := dataAsOn }

/-- The frame entering the `melt` call. -/
def entitiesOf (rows : List ScrapedRow) : List EntityRow :=
  (explodedOf rows).map (toEntity (dataAsOnOf rows))

/-- The `value_vars` of the `melt` call, in source order. -/
def metricCols : List String := ["HP", "Attack", "Defense", "Speed"]

/-- The metric-column value of an entity row selected by metric name. -/
def metricValue (e : EntityRow) (m : String) : Nat :=
  if m = "HP" then e.HP
  else if m = "Attack" then e.Attack
  else if m = "Defense" then e.Defense
  else e.Speed

/-- One row of the unpivoted (long-form) table: the `id_vars` replicated,
plus the `Metric`/`Values` pair. -/
structure MeltedRow where
  PokeID : String
  Rank : Nat
  Pokemon : String
  type : String
  Icon : String
  DetailsLink : String
  DataAsOn : Nat
  Metric : String
  Values : Nat
deriving DecidableEq

/-- The long-form row built from entity row `e` for metric column `m`. -/
def meltRow (e : EntityRow) (m : String) : MeltedRow :=
  { PokeID := e.PokeID
    Rank := e.Rank
    Pokemon := e.Pokemon
    type := e.type
    Icon := e.Icon
    DetailsLink := e.DetailsLink
    DataAsOn := e.DataAsOn
    Metric := m
    Values := metricValue e m }

/-- `df.melt(id_vars=..., value_vars=["HP","Attack","Defense","Speed"])`:
pandas emits the block of all rows for the first value column, then the
block for the second, and so on. -/
def melt (rows : List EntityRow) : List MeltedRow :=
  metricCols.flatMap (fun m => rows.map (fun e => meltRow e m))

/-- `drop_duplicates()` with pandas' default `keep="first"`: a row is kept
iff no equal row occurred earlier; `seen` accumulates the kept prefix. -/
def dropDupFrom {α : Type} [DecidableEq α] (seen : List α) : List α → List α
  | [] => []
  | x :: xs =>
    if x ∈ seen then dropDupFrom seen xs
    else x :: dropDupFrom (x :: seen) xs

/-- `df.drop_duplicates().reset_index(drop=True)` on the long-form table. -/
def dropDup {α : Type} [DecidableEq α] (l : List α) : List α :=
  dropDupFrom [] l

/-- `DataProcessor.transform_data`: index assignment, explode, derived
columns, drop, rename, melt, dtype coercion (value-preserving here; the
schema side is `transformedDtype` below), column selection and
`drop_duplicates`. -/
def transform_data (rows : List ScrapedRow) : List MeltedRow :=
  dropDup (melt (entitiesOf rows))

/-! ### Schema-level embedding of the dtype coercion step -/

/-- The dtype of a pandas column, at the granularity the coercion step of
`transform_data` distinguishes: integer, text and datetime. -/
inductive ColType
  | intCol
  | textCol
  | datetimeCol
deriving DecidableEq

/-- The columns of the frame produced by the `melt` call, in pandas order:
the `id_vars`, then `Metric`, then `Values`. -/
def meltFrameCols : List String :=
  ["PokeID", "Rank", "Pokemon", "Type", "Icon", "Details Link", "Data As On",
   "Metric", "Values"]

/-- Column dtypes entering the coercion block (lines 139–146 of
`data_processor.py`): `Rank` is read as an integer from the CSV, `Values`
unpivots the integer stat columns, `Data As On` comes from
`pd.to_datetime(...).max()`, and the remaining columns hold text. -/
def preCoerceDtype (c : String) : ColType :=
  if c = "Rank" then .intCol
  else if c = "Values" then .intCol
  else if c = "Data As On" then .datetimeCol
  else .textCol

/-- The coercion block itself: `df["Values"].astype(int)` and
`df["Rank"].astype(int)`, then a loop over `df.columns` applying
`astype(str)` to every column *not* in `["Rank", "Values", "Data As On"]` —
so `Data As On` keeps its incoming dtype. -/
def coerceTypes (d : String → ColType) (c : String) : ColType :=
  if c = "Values" ∨ c = "Rank" then .intCol
  else if c ∈ meltFrameCols then (if c = "Data As On" then d c else .textCol)
  else d c

/-- The dtype of each output column of `transform_data`. -/
def transformedDtype (c : String) : ColType :=
  coerceTypes preCoerceDtype c

/-! ### Embedding of the stage-level exception flow -/

/-- The original Python exceptions that can interrupt a stage. -/
inductive PyError
  | connectionError
  | parseError
  | typeError
  | writeError
deriving DecidableEq

/-- An exception as the caller of a stage observes it: either the original
exception propagating unwrapped, or a `CustomException` wrapping it (the
`raise CustomException(e) from e` pattern). -/
inductive RaisedError
  | raw (e : PyError)
  | custom (e : PyError)
deriving DecidableEq

/-- Whether a stage outcome is an exception wrapped in `CustomException`. -/
def isWrappedError : Except RaisedError Unit → Bool
  | .error (.custom _) => true
  | _ => false

/-- Control flow of `PokemonScraper.scrape_data`: `create_directories` and
`requests.get` run *before* the `try` block, so their exceptions propagate
unwrapped; the parse/extract/write body runs inside the `try` block, whose
`except` clause logs and re-raises `CustomException(e)`. The three phases
are abstracted as fallible sub-computations. -/
def scrape_data (mkdir : Except PyError Unit) (fetch : Except PyError String)
    (parseAndWrite : String → Except PyError Unit) : Except RaisedError Unit :=
  match mkdir with
  | .error e => .error (.raw e)
  | .ok _ =>
    match fetch with
    | .error e => .error (.raw e)
    | .ok html =>
      match parseAndWrite html with
      | .error e => .error (.custom e)
      | .ok _ => .ok ()

/-- Control flow of `DataProcessor.load_processed_tables`: the whole body
(directory creation, CSV read, transform, CSV write) sits inside one `try`
block whose `except` clause logs and re-raises `CustomException(e)`. -/
def load_processed_tables (body : Except PyError Unit) : Except RaisedError Unit :=
  match body with
  | .error e => .error (.custom e)
  | .ok _ => .ok ()

/-! ### Embedding of the `PokemonInfo` dataclass construction -/

/-- The field names declared by the `PokemonInfo` dataclass in
`src/constants.py`, in declaration order. -/
def pokemonInfoFields : List String :=
  ["title", "price", "in_stocks", "sku", "category", "description",
   "product_image_link", "additional_info", "product_link", "scrape_ts"]

/-- Calling a Python dataclass constructor with keyword arguments: it
raises `TypeError` when some keyword is not a declared field, or some
declared field receives no argument (none of the `PokemonInfo` fields has
a default). On success it returns the field/value mapping. -/
def callDataclass (fields : List String) (kwargs : List (String × String)) :
    Except PyError (List (String × String)) :=
  if kwargs.any (fun kv => ! fields.contains kv.1) then .error .typeError
  else if fields.any (fun f => ! (kwargs.map Prod.fst).contains f) then .error .typeError
  else .ok kwargs

/-- The thirteen text values `extract_pokemon_info` pulls out of one
`<tr>` element before constructing `PokemonInfo`. -/
structure RowValues where
  rank : String
  name : String
  types : String
  total_power : String
  hit_points : String
  attack : String
  defense : String
  special_attack : String
  special_defense : String
  speed : String
  icon_url : String
  details_url : String
  scrape_ts : String
deriving DecidableEq

/-- The `PokemonInfo(...)` call in `extract_pokemon_info`
(`data_scraper.py` lines 116–130), with exactly the keyword arguments the
source passes, in source order. -/
def extract_pokemon_info (v : RowValues) : Except PyError (List (String × String)) :=
  callDataclass pokemonInfoFields
    [("rank", v.rank), ("name", v.name), ("types", v.types),
     ("total_power", v.total_power), ("hit_points", v.hit_points),
     ("attack", v.attack), ("defense", v.defense),
     ("special_attack", v.special_attack),
     ("special_defense", v.special_defense), ("speed", v.speed),
     ("icon_url", v.icon_url), ("details_url", v.details_url),
     ("scrape_ts", v.scrape_ts)]

/-- The write loop of `scrape_data`: each entry is extracted and then
written via `write_to_csv`; the first exception aborts the loop. Returns
the records written so far and the exception, if one was raised. -/
def scrapeLoop : List RowValues → List (List (String × String)) × Option PyError
  | [] => ([], none)
  | v :: vs =>
    match extract_pokemon_info v with
    | .error e => ([], some e)
    | .ok d =>
      match scrapeLoop vs with
      | (ds, e?) => (d :: ds, e?)

/-! ### Embedding of the emitted display name -/

/-- The name emitted by `extract_pokemon_info` (`data_scraper.py` lines
99–105): when the `<small class="text-muted">` variant label exists, the
name is `f"{common_name} ({extra_name})"`; when the lookup raises
`AttributeError`, the name is the base label alone. -/
def emittedName (commonName : String) (extraName : Option String) : String :=
  match extraName with
  | some extra => commonName ++ " (" ++ extra ++ ")"
  | none => commonName

/-- The same decision in `01_WEBSCRAPING/pokedex_scraper.py` lines 43–49:
there the composite is `name + "-" + meganame`. -/
def scriptEmittedName (commonName : String) (extraName : Option String) : String :=
  match extraName with
  | some extra => commonName ++ "-" ++ extra
  | none => commonName

/-! ### Triple views for the round-trip claim -/

/-- The (identifier, category, metric, value) triples present before the
unpivot step: each entity row contributes one triple per metric column. -/
def preUnpivotTriples (rows : List ScrapedRow) : List (String × String × String × Nat) :=
  (entitiesOf rows).flatMap
    (fun e => metricCols.map (fun m => (e.PokeID, e.type, m, metricValue e m)))

/-- The (identifier, category, metric, value) triples carried by the final
transformed artifact (regrouping by `PokeID` is reading off the first
component). -/
def finalTriples (rows : List ScrapedRow) : List (String × String × String × Nat) :=
  (transform_data rows).map (fun r => (r.PokeID, r.type, r.Metric, r.Values))

/-! ### Per-input-row provenance view -/

/-- All long-form rows that input row number `i` (0-based) fans out to:
its synthetic identifier, one block per category value, one row per
metric. `transform_data`'s output is exactly the deduplication of the
concatenation of these blocks. -/
def outputOfInput (dataAsOn : Nat) (i : Nat) (r : ScrapedRow) : List MeltedRow :=
  melt ((explodeTypes ⟨"P" ++ Nat.repr (1000 + i), r⟩).map (toEntity dataAsOn))

/-! ### Concrete inputs used by the end-to-end scenario and witnesses -/

/-- The 1-row scraped input of the spec's end-to-end scenario:
`name="Test", categories="Fire,Flying", hp=10, attack=5, special_attack=5,
defense=3, special_defense=2, speed=7` (fields the scenario leaves
unspecified are filled with arbitrary concrete values). -/
def testRow : ScrapedRow :=
  { rank := 1, name := "Test", types := "Fire,Flying", total_power := 32,
    hit_points := 10, attack := 5, defense := 3, special_attack := 5,
    special_defense := 2, speed := 7, icon_url := "icon.png",
    details_url := "details/test", scrape_ts := 1 }

/-- A scraped row whose category field is empty. -/
def emptyTypesRow : ScrapedRow :=
  { rank := 2, name := "Blank", types := "", total_power := 10,
    hit_points := 1, attack := 2, defense := 3, special_attack := 4,
    special_defense := 5, speed := 6, icon_url := "i", details_url := "d",
    scrape_ts := 7 }

/-- Concrete row values for the scraper-loop witness. -/
def sampleRowValues : RowValues :=
  { rank := "1", name := "Bulbasaur", types := "Grass, Poison",
    total_power := "318", hit_points := "45", attack := "49",
    defense := "49", special_attack := "65", special_defense := "65",
    speed := "45", icon_url := "bulba.png", details_url := "/pokedex/bulbasaur",
    scrape_ts := "2024-01-01 00:00:00" }

/-- Decimal value of a digit character (used to invert `Nat.repr` when
proving the synthetic identifiers distinct). -/
def digitVal (c : Char) : Nat := c.toNat - '0'.toNat

/-! ## Library lemmas -/

theorem digitVal_digitChar : ∀ m : Nat, m < 10 → digitVal (Nat.digitChar m) = m := by
  decide

theorem toDigitsCore_decode (fuel : Nat) :
    ∀ (n : Nat) (acc : List Char), n < fuel →
      (Nat.toDigitsCore 10 fuel n acc).foldl (fun a c => 10 * a + digitVal c) 0
        = acc.foldl (fun a c => 10 * a + digitVal c) n := by
  induction fuel with
  | zero => intro n acc h; exact absurd h (Nat.not_lt_zero n)
  | succ f ih =>
    intro n acc h
    rw [Nat.toDigitsCore]
    by_cases h0 : n / 10 = 0
    · rw [if_pos h0]
      have hn : n < 10 := by omega
      have hmod : n % 10 = n := Nat.mod_eq_of_lt hn
      simp only [List.foldl]
      rw [hmod, digitVal_digitChar n hn]
      congr 1
      omega
    · rw [if_neg h0]
      have hge : 10 ≤ n := by
        by_contra hc
        exact h0 (Nat.div_eq_of_lt (by omega))
      have hlt : n / 10 < f := by
        have := Nat.div_lt_self (by omega : 0 < n) (by omega : 1 < 10)
        omega
      rw [ih (n / 10) (Nat.digitChar (n % 10) :: acc) hlt]
      simp only [List.foldl]
      rw [digitVal_digitChar (n % 10) (Nat.mod_lt n (by omega))]
      congr 1
      omega

theorem decode_repr (n : Nat) :
    (Nat.toDigits 10 n).foldl (fun a c => 10 * a + digitVal c) 0 = n := by
  rw [Nat.toDigits, toDigitsCore_decode (n + 1) n [] (Nat.lt_succ_self n)]
  rfl

theorem repr_injective : Function.Injective Nat.repr := by
  intro m n h
  have hd : Nat.toDigits 10 m = Nat.toDigits 10 n := by
    have h2 : (Nat.toDigits 10 m).asString = (Nat.toDigits 10 n).asString := h
    simpa [List.asString] using congrArg String.data h2
  calc m = (Nat.toDigits 10 m).foldl (fun a c => 10 * a + digitVal c) 0 :=
        (decode_repr m).symm
    _ = (Nat.toDigits 10 n).foldl (fun a c => 10 * a + digitVal c) 0 := by rw [hd]
    _ = n := decode_repr n

theorem string_append_left_cancel {s a b : String} (h : s ++ a = s ++ b) : a = b := by
  cases s with | mk sd =>
  cases a with | mk ad =>
  cases b with | mk bd =>
  have hd : sd ++ ad = sd ++ bd := congrArg String.data h
  exact congrArg String.mk (List.append_cancel_left hd)

theorem pokeId_injective {m n : Nat}
    (h : "P" ++ Nat.repr m = "P" ++ Nat.repr n) : m = n :=
  repr_injective (string_append_left_cancel h)

theorem splitChars_ne_nil (sep : Char) (l : List Char) : splitChars sep l ≠ [] := by
  induction l with
  | nil => simp [splitChars]
  | cons c cs ih =>
    simp only [splitChars]
    by_cases h : c = sep
    · simp [h]
    · rw [if_neg h]
      cases hs : splitChars sep cs with
      | nil => simp
      | cons g gs => simp

theorem pySplit_ne_nil (s : String) : pySplit s ≠ [] := by
  simp only [pySplit]
  intro h
  exact splitChars_ne_nil ',' s.data (List.map_eq_nil_iff.mp h)

theorem pySplit_empty : pySplit "" = [""] := by decide

theorem mem_dropDupFrom {α : Type} [DecidableEq α] (a : α) :
    ∀ (l seen : List α), a ∈ dropDupFrom seen l ↔ a ∈ l ∧ a ∉ seen := by
  intro l
  induction l with
  | nil => intro seen; simp [dropDupFrom]
  | cons x xs ih =>
    intro seen
    simp only [dropDupFrom]
    by_cases h : x ∈ seen
    · rw [if_pos h, ih seen]
      simp only [List.mem_cons]
      constructor
      · rintro ⟨hm, hn⟩
        exact ⟨Or.inr hm, hn⟩
      · rintro ⟨(rfl | hm), hn⟩
        · exact absurd h hn
        · exact ⟨hm, hn⟩
    · rw [if_neg h]
      simp only [List.mem_cons, ih (x :: seen)]
      constructor
      · rintro (rfl | ⟨hm, hn⟩)
        · exact ⟨Or.inl rfl, h⟩
        · exact ⟨Or.inr hm, fun hc => hn (Or.inr hc)⟩
      · rintro ⟨(rfl | hm), hn⟩
        · exact Or.inl rfl
        · by_cases hax : a = x
          · exact Or.inl hax
          · exact Or.inr ⟨hm, fun hc => hc.elim hax hn⟩

theorem mem_dropDup {α : Type} [DecidableEq α] {a : α} {l : List α} :
    a ∈ dropDup l ↔ a ∈ l := by
  rw [dropDup, mem_dropDupFrom]
  simp

theorem dropDup_eq_self {α : Type} [DecidableEq α] :
    ∀ (l : List α), l.Nodup → dropDup l = l := by
  have aux : ∀ (l seen : List α), l.Nodup → (∀ x ∈ l, x ∉ seen) →
      dropDupFrom seen l = l := by
    intro l
    induction l with
    | nil => intro seen _ _; rfl
    | cons x xs ih =>
      intro seen hnd hdisj
      have hx : x ∉ seen := hdisj x (List.mem_cons_self x xs)
      simp only [dropDupFrom, if_neg hx]
      congr 1
      apply ih (x :: seen) (List.Nodup.of_cons hnd)
      intro y hy
      simp only [List.mem_cons]
      rintro (rfl | hc)
      · exact (List.nodup_cons.mp hnd).1 hy
      · exact hdisj y (List.mem_cons_of_mem x hy) hc
  intro l h
  exact aux l [] h (by simp)

theorem assignIds_map_id (rows : List ScrapedRow) :
    ∀ n : Nat, (assignIds n rows).map (fun x => x.pokemon_id)
      = (List.range rows.length).map (fun i => "P" ++ Nat.repr (n + i)) := by
  induction rows with
  | nil => intro n; rfl
  | cons r rs ih =>
    intro n
    simp only [assignIds, List.map_cons, List.length_cons,
      List.range_succ_eq_map, List.map_map]
    rw [ih (n + 1)]
    simp only [List.cons.injEq]
    refine ⟨by simp, ?_⟩
    apply List.map_congr_left
    intro i hi
    have e : n + 1 + i = n + (i + 1) := by omega
    simp [Function.comp_apply, Nat.succ_eq_add_one, e]

theorem mem_assignIds {x : IndexedRow} {rows : List ScrapedRow} :
    ∀ {n : Nat}, x ∈ assignIds n rows ↔
      ∃ i, ∃ h : i < rows.length,
        x = ⟨"P" ++ Nat.repr (n + i), rows.get ⟨i, h⟩⟩ := by
  induction rows with
  | nil => intro n; simp [assignIds]
  | cons r rs ih =>
    intro n
    simp only [assignIds, List.mem_cons, ih, List.length_cons]
    constructor
    · rintro (rfl | ⟨i, hi, rfl⟩)
      · exact ⟨0, Nat.succ_pos _, by simp⟩
      · exact ⟨i + 1, Nat.succ_lt_succ hi, by simp; congr 2; omega⟩
    · rintro ⟨i, hi, rfl⟩
      cases i with
      | zero => left; simp
      | succ j =>
        right
        refine ⟨j, Nat.lt_of_succ_lt_succ hi, ?_⟩
        simp
        congr 2
        omega

theorem mem_melt {r : MeltedRow} {ents : List EntityRow} :
    r ∈ melt ents ↔ ∃ m ∈ metricCols, ∃ e ∈ ents, r = meltRow e m := by
  simp only [melt, List.mem_flatMap, List.mem_map]
  constructor
  · rintro ⟨m, hm, e, he, rfl⟩
    exact ⟨m, hm, e, he, rfl⟩
  · rintro ⟨m, hm, e, he, rfl⟩
    exact ⟨m, hm, e, he, rfl⟩

theorem pokeID_of_outputOfInput {dA i : Nat} {r : ScrapedRow} {m : MeltedRow}
    (hm : m ∈ outputOfInput dA i r) : m.PokeID = "P" ++ Nat.repr (1000 + i) := by
  simp only [outputOfInput, melt, List.mem_flatMap, List.mem_map, explodeTypes] at hm
  obtain ⟨mc, hmc, t, ht, rfl⟩ := hm
  obtain ⟨a, ha, heq⟩ := ht
  obtain ⟨a1, ha1, heq2⟩ := ha
  rw [← heq, ← heq2]
  rfl

theorem mem_transform_data {rows : List ScrapedRow} {r : MeltedRow} :
    r ∈ transform_data rows ↔
      ∃ i, ∃ h : i < rows.length,
        r ∈ outputOfInput (dataAsOnOf rows) i (rows.get ⟨i, h⟩) := by
  rw [transform_data, mem_dropDup, mem_melt]
  constructor
  · rintro ⟨mc, hmc, e, he, rfl⟩
    simp only [entitiesOf, explodedOf, List.mem_map, List.mem_flatMap] at he
    obtain ⟨x, ⟨ir, hir, hx⟩, rfl⟩ := he
    rw [mem_assignIds] at hir
    obtain ⟨i, hi, rfl⟩ := hir
    refine ⟨i, hi, ?_⟩
    simp only [outputOfInput, melt, List.mem_flatMap, List.mem_map]
    exact ⟨mc, hmc, toEntity (dataAsOnOf rows) x, ⟨x, hx, rfl⟩, rfl⟩
  · rintro ⟨i, hi, hm⟩
    simp only [outputOfInput, melt, List.mem_flatMap, List.mem_map] at hm
    obtain ⟨mc, hmc, e, ⟨x, hx, rfl⟩, rfl⟩ := hm
    refine ⟨mc, hmc, toEntity (dataAsOnOf rows) x, ?_, rfl⟩
    simp only [entitiesOf, explodedOf, List.mem_map, List.mem_flatMap]
    exact ⟨x, ⟨⟨"P" ++ Nat.repr (1000 + i), rows.get ⟨i, hi⟩⟩,
      mem_assignIds.mpr ⟨i, hi, rfl⟩, hx⟩, rfl⟩

/-! ## Claims -/

/-- C1: for the 1-row scraped input with `name="Test"`,
`categories="Fire,Flying"`, `hp=10`, `attack=5`, `special_attack=5`,
`defense=3`, `special_defense=2`, `speed=7`, `transform_data` yields
exactly 8 output rows — 2 category rows (Fire, Flying) times 4 metrics
with values `HP=10`, `Attack=10`, `Defense=5`, `Speed=7` — and every one
of the 8 rows carries the synthetic identifier `"P1000"`. -/
theorem c1_end_to_end :
    (transform_data [testRow]).length = 8 ∧
    (transform_data [testRow]).map (fun m => (m.PokeID, m.type, m.Metric, m.Values)) =
      [("P1000", "Fire", "HP", 10), ("P1000", "Flying", "HP", 10),
       ("P1000", "Fire", "Attack", 10), ("P1000", "Flying", "Attack", 10),
       ("P1000", "Fire", "Defense", 5), ("P1000", "Flying", "Defense", 5),
       ("P1000", "Fire", "Speed", 7), ("P1000", "Flying", "Speed", 7)] := by
  decide

/-- C2: for every row of the (exploded) input table, the derived aggregate
columns equal the exact sum of their two source columns: row for row,
`Attack = attack + special_attack` and `Defense = defense +
special_defense`. -/
theorem c2_derived_sums (rows : List ScrapedRow) :
    (entitiesOf rows).map (fun e => e.Attack)
        = (explodedOf rows).map (fun x => x.row.attack + x.row.special_attack) ∧
    (entitiesOf rows).map (fun e => e.Defense)
        = (explodedOf rows).map (fun x => x.row.defense + x.row.special_defense) := by
  constructor <;>
    · simp only [entitiesOf, List.map_map]
      apply List.map_congr_left
      intro a _
      rfl

/-- C3: exploding a row whose category field splits into `k` values yields
exactly `k` rows (never zero), identical except for the category value
(which runs through the stripped split values); a row whose category field
is empty yields the single row with the empty-string category. -/
theorem c3_explode_fanout (x : IndexedRow) :
    (explodeTypes x).length = (pySplit x.row.types).length ∧
    1 ≤ (explodeTypes x).length ∧
    (explodeTypes x).map (fun y => (y.pokemon_id, y.row))
      = List.replicate (pySplit x.row.types).length (x.pokemon_id, x.row) ∧
    (explodeTypes x).map (fun y => y.type) = (pySplit x.row.types).map pyStrip ∧
    (x.row.types = "" → explodeTypes x = [⟨x.pokemon_id, "", x.row⟩]) := by
  refine ⟨by simp [explodeTypes], ?_, ?_, by simp [explodeTypes], ?_⟩
  · have h := pySplit_ne_nil x.row.types
    simp only [explodeTypes, List.length_map]
    exact List.length_pos.mpr h
  · simp only [explodeTypes, List.map_map, List.length_map]
    show List.map (fun t => (x.pokemon_id, x.row)) (pySplit x.row.types) = _
    exact List.map_const' _ _
  · intro h
    simp [explodeTypes, h, pySplit_empty]
    rfl

/-- Witness for C3 at a concrete row with an empty category field: the
explode produces the one empty-category row, not zero rows. -/
theorem c3_witness :
    explodeTypes ⟨"P1001", emptyTypesRow⟩ = [⟨"P1001", "", emptyTypesRow⟩] :=
  (c3_explode_fanout ⟨"P1001", emptyTypesRow⟩).2.2.2.2 rfl

/-- C4: the synthetic identifier attached to input row `i` is
`"P" ++ repr (1000 + i)` (form `P<offset+sequence>`, offset 1000), the
identifier strings are pairwise distinct, the underlying numeric sequence
is strictly increasing, and the first row receives `"P1000"`. -/
theorem c4_identifier_sequence (rows : List ScrapedRow) :
    (assignIds 1000 rows).map (fun x => x.pokemon_id)
        = (List.range rows.length).map (fun i => "P" ++ Nat.repr (1000 + i)) ∧
    ((assignIds 1000 rows).map (fun x => x.pokemon_id)).Nodup ∧
    List.Pairwise (· < ·) ((List.range rows.length).map (fun i => 1000 + i)) ∧
    (rows ≠ [] →
      ((assignIds 1000 rows).map (fun x => x.pokemon_id)).head? = some "P1000") := by
  refine ⟨assignIds_map_id rows 1000, ?_, ?_, ?_⟩
  · rw [assignIds_map_id rows 1000]
    apply List.Nodup.map
    · intro a b hab
      have := pokeId_injective hab
      omega
    · exact List.nodup_range rows.length
  · exact List.Pairwise.map _ (fun a b h => by omega)
      (List.pairwise_lt_range rows.length)
  · intro hne
    cases rows with
    | nil => exact absurd rfl hne
    | cons r rs =>
      simp only [assignIds, List.map_cons, List.head?_cons]
      congr 1

/-- Witness for C4 at the concrete 1-row table: the first identifier is
`"P1000"`. -/
theorem c4_witness :
    ((assignIds 1000 [testRow]).map (fun x => x.pokemon_id)).head? = some "P1000" :=
  (c4_identifier_sequence [testRow]).2.2.2 (by decide)

/-- C5: regrouping the final transformed artifact by the synthetic
identifier reconstructs exactly the set of (category, metric, value)
triples present before the unpivot step — the melt followed by
`drop_duplicates` loses no triple and invents none. -/
theorem c5_round_trip (rows : List ScrapedRow) (t : String × String × String × Nat) :
    t ∈ finalTriples rows ↔ t ∈ preUnpivotTriples rows := by
  simp only [finalTriples, preUnpivotTriples, transform_data, List.mem_map,
    mem_dropDup, melt, List.mem_flatMap]
  constructor
  · rintro ⟨r, ⟨m, hm, e, he, rfl⟩, rfl⟩
    exact ⟨e, he, m, hm, rfl⟩
  · rintro ⟨e, he, m, hm, rfl⟩
    exact ⟨meltRow e m, ⟨m, hm, e, he, rfl⟩, rfl⟩

/-- C6 counterexample: an exception raised by the HTTP fetch in
`scrape_data` propagates to the caller unwrapped (the `requests.get` call
sits before the `try` block), so it is not true that every exception is
wrapped in `CustomException`. -/
theorem c6_counterexample :
    scrape_data (Except.ok ()) (Except.error PyError.connectionError)
        (fun _ => Except.ok ()) = Except.error (RaisedError.raw PyError.connectionError) ∧
    isWrappedError (scrape_data (Except.ok ()) (Except.error PyError.connectionError)
        (fun _ => Except.ok ())) = false :=
  ⟨rfl, rfl⟩

/-- C6 amended: exceptions raised inside a stage's `try` block — the
parse/extract/write body of the extractor, and the whole body of the
transformer's `load_processed_tables` — are wrapped in `CustomException`
and re-raised, and a stage either fully succeeds or raises; but the
extractor's directory creation and HTTP fetch run before its `try` block,
so their exceptions propagate unwrapped. -/
theorem c6_amended_wrapping :
    (∀ (e : PyError) (pw : String → Except PyError Unit),
        scrape_data (Except.ok ()) (Except.error e) pw
          = Except.error (RaisedError.raw e)) ∧
    (∀ (e : PyError) (fetch : Except PyError String)
        (pw : String → Except PyError Unit),
        scrape_data (Except.error e) fetch pw = Except.error (RaisedError.raw e)) ∧
    (∀ (html : String) (e : PyError) (pw : String → Except PyError Unit),
        pw html = Except.error e →
          scrape_data (Except.ok ()) (Except.ok html) pw
            = Except.error (RaisedError.custom e)) ∧
    (∀ (html : String) (pw : String → Except PyError Unit),
        pw html = Except.ok () →
          scrape_data (Except.ok ()) (Except.ok html) pw = Except.ok ()) ∧
    (∀ e : PyError,
        load_processed_tables (Except.error e) = Except.error (RaisedError.custom e)) ∧
    load_processed_tables (Except.ok ()) = Except.ok () := by
  refine ⟨fun e pw => rfl, fun e fetch pw => rfl, ?_, ?_, fun e => rfl, rfl⟩
  · intro html e pw hpw
    simp [scrape_data, hpw]
  · intro html pw hpw
    simp [scrape_data, hpw]

/-- Witness for the amended C6: a concrete parse error inside the `try`
block is wrapped in `CustomException`. -/
theorem c6_witness :
    scrape_data (Except.ok ()) (Except.ok "<html>")
        (fun _ => Except.error PyError.parseError)
      = Except.error (RaisedError.custom PyError.parseError) :=
  c6_amended_wrapping.2.2.1 "<html>" PyError.parseError _ rfl

/-- C7 counterexample: after the coercion step the `"Data As On"` column
does not hold text — the `astype(str)` loop explicitly skips it. -/
theorem c7_counterexample :
    ¬ transformedDtype "Data As On" = ColType.textCol := by
  decide

/-- C7 amended: after the type-coercion step, `Values` and `Rank` hold
integers, every other column except `"Data As On"` (including the
synthetic identifier `PokeID`) holds text, and `"Data As On"` keeps its
datetime type. -/
theorem c7_amended_dtypes :
    transformedDtype "Values" = ColType.intCol ∧
    transformedDtype "Rank" = ColType.intCol ∧
    transformedDtype "PokeID" = ColType.textCol ∧
    transformedDtype "Pokemon" = ColType.textCol ∧
    transformedDtype "Type" = ColType.textCol ∧
    transformedDtype "Icon" = ColType.textCol ∧
    transformedDtype "Details Link" = ColType.textCol ∧
    transformedDtype "Metric" = ColType.textCol ∧
    transformedDtype "Data As On" = ColType.datetimeCol := by
  decide

/-- C8 counterexample: with primary label `"Venusaur"` and secondary label
`"Mega Venusaur"`, the emitted display name is not the secondary label. -/
theorem c8_counterexample :
    emittedName "Venusaur" (some "Mega Venusaur") ≠ "Mega Venusaur" := by
  decide

/-- C8 amended: when a secondary/variant label is present the emitted
display name is the composite `"<primary> (<secondary>)"` (respectively
`"<primary>-<secondary>"` in the standalone scraper script), and without a
secondary label it is the primary label. -/
theorem c8_amended_name (c e : String) :
    emittedName c (some e) = c ++ " (" ++ e ++ ")" ∧
    emittedName c none = c ∧
    scriptEmittedName c (some e) = c ++ "-" ++ e ∧
    scriptEmittedName c none = c :=
  ⟨rfl, rfl, rfl, rfl⟩

/-- C9: constructing `PokemonInfo` with the keyword arguments used in
`extract_pokemon_info` raises `TypeError` for every input row, because
the keywords do not match the declared dataclass fields; consequently the
scrape loop writes no record and, on any nonempty entry list, aborts with
that `TypeError`. -/
theorem c9_dataclass_mismatch :
    (∀ v : RowValues, extract_pokemon_info v = Except.error PyError.typeError) ∧
    (∀ entries : List RowValues, (scrapeLoop entries).1 = []) ∧
    (∀ entries : List RowValues,
        entries ≠ [] → (scrapeLoop entries).2 = some PyError.typeError) := by
  refine ⟨fun v => rfl, ?_, ?_⟩
  · intro entries
    cases entries with
    | nil => rfl
    | cons v vs => rfl
  · intro entries hne
    cases entries with
    | nil => exact absurd rfl hne
    | cons v vs => rfl

/-- Witness for C9 at one concrete scraped row: no record is written and
the loop aborts with `TypeError`. -/
theorem c9_witness :
    (scrapeLoop [sampleRowValues]).1 = [] ∧
    (scrapeLoop [sampleRowValues]).2 = some PyError.typeError :=
  ⟨c9_dataclass_mismatch.2.1 [sampleRowValues],
   c9_dataclass_mismatch.2.2 [sampleRowValues] (by decide)⟩

/-- C10: the synthetic identifier is assigned before the category explode
and the metric unpivot, so every output row fanned out from input row `i`
carries that row's identifier `"P" ++ repr (1000 + i)`, and two rows of
the output carry the same `PokeID` if and only if they derive from the
same input row. -/
theorem c10_identifier_provenance (rows : List ScrapedRow) :
    (∀ (i : Nat) (h : i < rows.length) (m : MeltedRow),
        m ∈ outputOfInput (dataAsOnOf rows) i (rows.get ⟨i, h⟩) →
          m.PokeID = "P" ++ Nat.repr (1000 + i)) ∧
    (∀ m₁ m₂ : MeltedRow,
        m₁ ∈ transform_data rows → m₂ ∈ transform_data rows →
        (m₁.PokeID = m₂.PokeID ↔
          ∃ i, ∃ h : i < rows.length,
            m₁ ∈ outputOfInput (dataAsOnOf rows) i (rows.get ⟨i, h⟩) ∧
            m₂ ∈ outputOfInput (dataAsOnOf rows) i (rows.get ⟨i, h⟩))) := by
  refine ⟨fun i h m hm => pokeID_of_outputOfInput hm, ?_⟩
  intro m₁ m₂ h₁ h₂
  rw [mem_transform_data] at h₁ h₂
  obtain ⟨i₁, hi₁, hm₁⟩ := h₁
  obtain ⟨i₂, hi₂, hm₂⟩ := h₂
  constructor
  · intro heq
    have e₁ := pokeID_of_outputOfInput hm₁
    have e₂ := pokeID_of_outputOfInput hm₂
    have hii : i₁ = i₂ := by
      have hp : "P" ++ Nat.repr (1000 + i₁) = "P" ++ Nat.repr (1000 + i₂) :=
        e₁.symm.trans (heq.trans e₂)
      have := pokeId_injective hp
      omega
    subst hii
    exact ⟨i₁, hi₁, hm₁, hm₂⟩
  · rintro ⟨i, hi, hma, hmb⟩
    rw [pokeID_of_outputOfInput hma, pokeID_of_outputOfInput hmb]

/-- Witness for C10 at the concrete 1-row table: two distinct output rows
that both derive from input row 0 share the identifier. -/
theorem c10_witness :
    (⟨"P1000", 1, "Test", "Fire", "icon.png", "details/test", 1, "HP", 10⟩
        : MeltedRow).PokeID =
    (⟨"P1000", 1, "Test", "Flying", "icon.png", "details/test", 1, "HP", 10⟩
        : MeltedRow).PokeID :=
  ((c10_identifier_provenance [testRow]).2 _ _ (by decide) (by decide)).mpr
    ⟨0, by decide, by decide, by decide⟩

end AnalyzingPokemons
